import Mathlib

/-!
Verification of the Dockstore workflow-search tool
(`src/bioos_mcp/tools/dockstore_search.py`): a shallow embedding of the
query-body builder (`DockstoreSearch._build_search_body`) and the result
formatter (`DockstoreSearch.format_results`), together with proofs of the
specified properties.  Python floats (relevance scores, boost weights) are
modelled as rationals; Python dictionaries with optional keys are modelled
as structures with `Option` fields, and Python truthiness of a string value
(`None` and `""` are both falsy) is made explicit.
-/

namespace DockstoreSearch

/-- One query clause as passed to `_build_search_body`: the Python dict
`{"terms": [...], "fields": [...], "operator": ...}`.  The `operator`
entry is carried but never read by the builder. -/
structure QueryClause where
  terms : List String
  fields : List String
  op : String
deriving DecidableEq, Repr

/-- One entry of the `should` list of the built request body.
`wildcard field value caseInsensitive boost` models
`{"wildcard": {field: {"value": value, "case_insensitive": ..., "boost": ...}}}`;
`matchCond matchType field query boost` models
`{match_type: {field: {"query": query, "boost": boost}}}` where
`match_type` is the string `"match_phrase"` or `"match"`. -/
inductive ShouldEntry where
  | wildcard : String → String → Bool → ℚ → ShouldEntry
  | matchCond : String → String → String → ℚ → ShouldEntry
deriving DecidableEq, Repr

/-- The boost weight attached to a should-entry. -/
def ShouldEntry.boost : ShouldEntry → ℚ
  | .wildcard _ _ _ b => b
  | .matchCond _ _ _ b => b

/-- One entry of the `filter` list: `{"term": {field: value}}` with a
string-valued or boolean-valued term condition. -/
inductive FilterCond where
  | termStr : String → String → FilterCond
  | termBool : String → Bool → FilterCond
deriving DecidableEq, Repr

/-- The field a filter condition constrains. -/
def FilterCond.field : FilterCond → String
  | .termStr f _ => f
  | .termBool f _ => f

/-- Python truthiness of an optional string: `None` and `""` are falsy. -/
def strTruthy : Option String → Bool
  | none => false
  | some s => s ≠ ""

/-- The per-field boost assignment of `_build_search_body`
(lines 194-206 of the source). -/
def boostValue (field : String) : ℚ :=
  if field = "full_workflow_path" ∨ field = "tool_path" then 14
  else if field = "description" ∨ field = "workflowName" ∨ field = "name" then 10
  else if field = "categories.name" ∨ field = "categories.displayName" then 8
  else if field = "all_authors.name" ∨ field = "organization" then 6
  else if field = "labels.value" ∨ field = "input_file_formats.value"
        ∨ field = "output_file_formats.value" then 4
  else 2

/-- The should-entry built for one `(term, field)` pair
(lines 209-228 of the source): a wildcard condition on `*term*` when
`query_type == "wildcard"`, otherwise a `"match_phrase"` or `"match"`
condition according to `is_sentence`. -/
def buildShouldEntry (query_type : String) (is_sentence : Bool)
    (term field : String) : ShouldEntry :=
  if query_type = "wildcard" then
    ShouldEntry.wildcard field ("*" ++ term ++ "*") true (boostValue field)
  else
    ShouldEntry.matchCond (if is_sentence then "match_phrase" else "match")
      field term (boostValue field)

/-- The should-entries one clause contributes: the loop
`for term, field in zip(terms, fields)` (lines 192-228). -/
def clauseEntries (query_type : String) (is_sentence : Bool)
    (q : QueryClause) : List ShouldEntry :=
  (q.terms.zip q.fields).map (fun p => buildShouldEntry query_type is_sentence p.1 p.2)

/-- The `filter` list built from the three options (lines 172-185):
a `descriptorType` term when `descriptor_type` is truthy, a
`verified = true` term when `verified_only`, and an `archived = false`
term unless `include_archived`. -/
def buildFilter (descriptor_type : Option String)
    (verified_only include_archived : Bool) : List FilterCond :=
  (if strTruthy descriptor_type then
    [FilterCond.termStr "descriptorType" (descriptor_type.getD "")] else [])
  ++ (if verified_only then [FilterCond.termBool "verified" true] else [])
  ++ (if !include_archived then [FilterCond.termBool "archived" false] else [])

/-- The search request body assembled by `_build_search_body`: page size,
`_source` projection, sort spec, highlighted fields, and the boolean query
(`must` / `should` / `minimum_should_match` / `filter`). -/
structure SearchBody where
  size : Nat
  sourceFields : List String
  sortSpec : List (String × String)
  highlightFields : List String
  must : List (String × String)
  should : List ShouldEntry
  minimum_should_match : Nat
  filter : List FilterCond
deriving DecidableEq, Repr

/-- `DockstoreSearch._build_search_body` (lines 110-230 of the source). -/
def _build_search_body (queries : List QueryClause) (is_sentence : Bool)
    (query_type : String) (descriptor_type : Option String)
    (verified_only : Bool) (include_archived : Bool) : SearchBody :=
  { size := 201
  , sourceFields :=
      [ "all_authors", "approvedAITopic", "descriptorType"
      , "descriptorTypeSubclass", "full_workflow_path", "gitUrl"
      , "name", "namespace", "organization", "private_access"
      , "providerUrl", "repository", "starredUsers", "toolname"
      , "tool_path", "topicAutomatic", "topicSelection", "verified"
      , "workflowName", "description", "workflowVersions"
      , "categories.name", "categories.displayName"
      , "descriptor_type_versions", "engine_versions"
      , "input_file_formats.value", "output_file_formats.value"
      , "archived", "openData", "has_checker"
      , "verified_platforms", "execution_partners", "validation_partners" ]
  , sortSpec := [("archived", "asc"), ("_score", "desc")]
  , highlightFields :=
      [ "full_workflow_path", "tool_path"
      , "workflowVersions.sourceFiles.content", "tags.sourceFiles.content"
      , "description", "labels.value", "all_authors.name", "topicAutomatic"
      , "categories.topic", "categories.displayName", "categories.name"
      , "input_file_formats.value", "output_file_formats.value" ]
  , must := [("_index", "workflows")]
  , should := queries.flatMap (clauseEntries query_type is_sentence)
  , minimum_should_match := 1
  , filter := buildFilter descriptor_type verified_only include_archived }

/-- One element of a `categories` list in a hit source:
`cat.get("name", "")` reads an optional `name`. -/
structure Category where
  name : Option String
deriving DecidableEq, Repr

/-- One element of an `all_authors` list: `author.get("name", "")`. -/
structure Author where
  name : Option String
deriving DecidableEq, Repr

/-- One element of an `input_file_formats` / `output_file_formats` list:
`fmt.get("value", "")`. -/
structure FileFormat where
  value : Option String
deriving DecidableEq, Repr

/-- The `_source` dictionary of one hit, restricted to the keys
`format_results` reads.  A missing key is `none`; a missing list-valued
key is the empty list (the `.get(key, [])` default); a missing
`verified` is `false` (the `.get("verified", False)` default). -/
structure HitSource where
  workflowName : Option String
  name : Option String
  repository : Option String
  full_workflow_path : Option String
  description : Option String
  descriptorType : Option String
  categories : List Category
  verified : Bool
  all_authors : List Author
  organization : Option String
  input_file_formats : List FileFormat
  output_file_formats : List FileFormat
deriving DecidableEq, Repr

/-- One hit: `hit.get("_source", {})` and `hit.get("_score", 0)`;
the score (a Python float) is modelled as a rational. -/
structure Hit where
  source : HitSource
  score : ℚ
deriving DecidableEq, Repr

/-- The `results` argument of `format_results`.  `absent` is a falsy value
(`None` or an empty dict); `missingHits` is a truthy dict without the
`"hits"` key; `hits inner` has a `"hits"` dict whose inner `"hits"` list
is `inner` (`none` when the inner key is missing). -/
inductive SearchResults where
  | absent : SearchResults
  | missingHits : SearchResults
  | hits : Option (List Hit) → SearchResults
deriving DecidableEq, Repr

/-- The hit list `format_results` iterates over, or `none` when the
guard `if not results or "hits" not in results` fires (line 279). -/
def extractHits : SearchResults → Option (List Hit)
  | .absent => none
  | .missingHits => none
  | .hits inner => some (inner.getD [])

/-- The per-entry dictionary `workflow_info` (lines 299-311). -/
structure WorkflowInfo where
  name : String
  path : String
  desc : String
  score : ℚ
  descriptor_type : String
  categories : List String
  verified : Bool
  authors : List String
  organization : String
  input_formats : List String
  output_formats : List String
deriving DecidableEq, Repr

/-- The value of an optional string field read with a `""` default. -/
def strVal (o : Option String) : String := o.getD ""

/-- Python `a or b` for an optional string `a`: `b` when `a` is `None`
or empty, else the string in `a`. -/
def orElseStr (a : Option String) (b : String) : String :=
  match a with
  | none => b
  | some s => if s = "" then b else s

/-- `desc.split("\n")[0]` applied only when `desc` is truthy
(lines 294-296). -/
def firstLineOf (d : String) : String :=
  if d = "" then d else ((d.splitOn "\x0a").headD "")

/-- Derivation of one `workflow_info` record from a hit
(lines 285-311): the name fallback chain, first-line description, and
the projected list fields. -/
def hitToInfo (h : Hit) : WorkflowInfo :=
  { name := orElseStr h.source.workflowName
      (orElseStr h.source.name
        (orElseStr h.source.repository "Unnamed Workflow"))
  , path := strVal h.source.full_workflow_path
  , desc := firstLineOf (strVal h.source.description)
  , score := h.score
  , descriptor_type := strVal h.source.descriptorType
  , categories := h.source.categories.map (fun c => strVal c.name)
  , verified := h.source.verified
  , authors := h.source.all_authors.map (fun a => strVal a.name)
  , organization := strVal h.source.organization
  , input_formats := h.source.input_file_formats.map (fun f => strVal f.value)
  , output_formats := h.source.output_file_formats.map (fun f => strVal f.value) }

/-- `workflows.sort(key=lambda x: x["score"], reverse=True)` (line 315):
a stable descending sort by score. -/
def sortedWorkflows (hits : List Hit) : List WorkflowInfo :=
  (hits.map hitToInfo).mergeSort (fun a b => decide (b.score ≤ a.score))

/-- `workflows[:display_count]` with `display_count = min(total, 5)`
(lines 316-317, 324). -/
def displayedWorkflows (hits : List Hit) : List WorkflowInfo :=
  let ws := sortedWorkflows hits
  ws.take (min ws.length 5)

/-- Two-decimal rendering of a score, modelling the Python format
specifier `:.2f` over rationals. -/
def formatScore (q : ℚ) : String :=
  let cents : Int := ⌊q * 100 + 1 / 2⌋
  let whole := cents / 100
  let frac := (cents % 100).toNat
  toString whole ++ "." ++ (if frac < 10 then "0" else "") ++ toString frac

/-- `", ".join(xs)`. -/
def joinComma (xs : List String) : String := String.intercalate ", " xs

/-- The link-style line of one entry (lines 325-329), including the
verification marker. -/
def baseLine (wf : WorkflowInfo) : String :=
  let url := "https://dockstore.org/workflows/" ++ wf.path
  let info := "- [" ++ wf.name ++ "](" ++ url ++ ") (similarity: "
    ++ formatScore wf.score ++ ")"
  if wf.verified then info ++ " ✓" else info

/-- The conditional detail lines appended only in full-output mode
(lines 337-349): each line is present exactly when its underlying
value or list is truthy. -/
def detailLines (wf : WorkflowInfo) : List String :=
  (if wf.descriptor_type ≠ "" then ["  Type: " ++ wf.descriptor_type] else [])
  ++ (if wf.categories ≠ [] then ["  Categories: " ++ joinComma wf.categories] else [])
  ++ (if wf.authors ≠ [] then ["  Authors: " ++ joinComma wf.authors] else [])
  ++ (if wf.organization ≠ "" then ["  Organization: " ++ wf.organization] else [])
  ++ (if wf.input_formats ≠ [] then ["  Input formats: " ++ joinComma wf.input_formats] else [])
  ++ (if wf.output_formats ≠ [] then ["  Output formats: " ++ joinComma wf.output_formats] else [])

/-- The block of lines appended for one displayed workflow
(lines 324-351): link line, optional description line, optional detail
lines, and the trailing blank separator line. -/
def renderEntry (output_full : Bool) (wf : WorkflowInfo) : List String :=
  [baseLine wf]
  ++ (if wf.desc ≠ "" then ["  " ++ wf.desc] else [])
  ++ (if output_full then detailLines wf else [])
  ++ [""]

/-- The header lines (lines 282, 319-322). -/
def headerLines (total display_count : Nat) : List String :=
  [ "The following workflows were found in Dockstore:\x0a"
  , if 5 < total then
      "Found " ++ toString total ++ " workflows, showing top "
        ++ toString display_count ++ " by relevance:\x0a"
    else
      "Found " ++ toString total ++ " workflow(s):\x0a" ]

/-- The per-workflow blocks the formatter renders: empty when the
zero-hit guard fires, otherwise one block per displayed workflow. -/
def renderedEntries (results : SearchResults) (output_full : Bool) :
    List (List String) :=
  match extractHits results with
  | none => []
  | some hits => (displayedWorkflows hits).map (renderEntry output_full)

/-- The full `formatted` line list built by `format_results`
(lines 282-351) when the zero-hit guard does not fire, and the
no-match message as a single line when it does. -/
def format_results_lines (results : SearchResults) (output_full : Bool) :
    List String :=
  match extractHits results with
  | none => ["No matching workflows found"]
  | some hits =>
      headerLines (sortedWorkflows hits).length
        (min (sortedWorkflows hits).length 5)
      ++ ((displayedWorkflows hits).map (renderEntry output_full)).flatten

/-- The return value of `format_results`: a plain string or a line list. -/
inductive Rendered where
  | text : String → Rendered
  | lines : List String → Rendered
deriving DecidableEq, Repr

/-- `DockstoreSearch.format_results` (lines 277-356): the no-match
message for a falsy or hit-less `results`, otherwise the formatted
output — the raw line list in full-output mode, the lines joined with
newlines otherwise. -/
def format_results (results : SearchResults) (output_full : Bool) : Rendered :=
  match extractHits results with
  | none => Rendered.text "No matching workflows found"
  | some _ =>
      if output_full then Rendered.lines (format_results_lines results output_full)
      else Rendered.text
        (String.intercalate "\x0a" (format_results_lines results output_full))

/-! ### Helper lemmas -/

/-- The boost of a built should-entry is the table value of its field. -/
theorem boost_buildShouldEntry (query_type : String) (is_sentence : Bool)
    (term field : String) :
    (buildShouldEntry query_type is_sentence term field).boost = boostValue field := by
  unfold buildShouldEntry
  split_ifs <;> rfl

/-! ### Claims about the query builder -/

/-- C2: the `should` list of the built request has exactly one weighted
entry per `(term, field)` pair taken across all input clauses, in order,
with no deduplication of repeated pairs and no cross-clause combination. -/
theorem should_one_entry_per_pair (queries : List QueryClause)
    (is_sentence : Bool) (query_type : String)
    (descriptor_type : Option String)
    (verified_only include_archived : Bool) :
    (_build_search_body queries is_sentence query_type descriptor_type
        verified_only include_archived).should
      = (queries.flatMap (fun q => q.terms.zip q.fields)).map
          (fun p => buildShouldEntry query_type is_sentence p.1 p.2) := by
  simp only [_build_search_body, List.map_flatMap]
  rfl

/-- C1: every `(term, field)` pair of every input clause yields a
should-entry whose boost follows the field-weight table: 14 for the path
identifiers, 10 for the descriptive name fields, 8 for the category
fields, 6 for the attribution fields, 4 for the tag/format fields, and 2
for any other field. -/
theorem boost_from_weight_table (queries : List QueryClause)
    (is_sentence : Bool) (query_type : String)
    (descriptor_type : Option String)
    (verified_only include_archived : Bool)
    (q : QueryClause) (hq : q ∈ queries) (term field : String)
    (hp : (term, field) ∈ q.terms.zip q.fields) :
    ∃ e ∈ (_build_search_body queries is_sentence query_type descriptor_type
        verified_only include_archived).should,
      e = buildShouldEntry query_type is_sentence term field ∧
      e.boost =
        (if field = "full_workflow_path" ∨ field = "tool_path" then (14 : ℚ)
        else if field = "description" ∨ field = "workflowName" ∨ field = "name" then 10
        else if field = "categories.name" ∨ field = "categories.displayName" then 8
        else if field = "all_authors.name" ∨ field = "organization" then 6
        else if field = "labels.value" ∨ field = "input_file_formats.value"
              ∨ field = "output_file_formats.value" then 4
        else 2) := by
  refine ⟨buildShouldEntry query_type is_sentence term field, ?_, rfl, ?_⟩
  · show _ ∈ (_build_search_body queries is_sentence query_type descriptor_type
        verified_only include_archived).should
    unfold _build_search_body
    exact List.mem_flatMap.mpr
      ⟨q, hq, List.mem_map.mpr ⟨(term, field), hp, rfl⟩⟩
  · rw [boost_buildShouldEntry]
    rfl

/-- Witness for C1 at a concrete clause list. -/
theorem boost_from_weight_table_witness :
    ∃ e ∈ (_build_search_body [⟨["x"], ["tool_path"], "AND"⟩] false
        "match_phrase" none false false).should,
      e = buildShouldEntry "match_phrase" false "x" "tool_path" ∧
      e.boost = 14 := by
  have h := boost_from_weight_table [⟨["x"], ["tool_path"], "AND"⟩] false
    "match_phrase" none false false ⟨["x"], ["tool_path"], "AND"⟩
    (by simp) "x" "tool_path" (by simp)
  simpa using h

/-- C3: the built filter list contains the `archived = false` term
condition exactly when `include_archived` is false, and when
`include_archived` is true no filter condition constrains `archived`. -/
theorem archived_filter_iff (queries : List QueryClause)
    (is_sentence : Bool) (query_type : String)
    (descriptor_type : Option String)
    (verified_only : Bool) (include_archived : Bool) :
    ((FilterCond.termBool "archived" false)
        ∈ (_build_search_body queries is_sentence query_type descriptor_type
            verified_only include_archived).filter
      ↔ include_archived = false)
    ∧ (include_archived = true →
        ∀ c ∈ (_build_search_body queries is_sentence query_type
            descriptor_type verified_only include_archived).filter,
          FilterCond.field c ≠ "archived") := by
  unfold _build_search_body buildFilter
  constructor
  · cases include_archived <;> split_ifs <;>
      simp_all [FilterCond.field]
  · intro ha c hc
    subst ha
    simp only [Bool.not_true, if_false] at hc
    rcases List.mem_append.mp hc with h | h
    · rcases List.mem_append.mp h with h | h <;>
        · split_ifs at h <;> simp_all [FilterCond.field]
    · simp at h

/-- Witness for C3 at concrete inputs, in both archived modes. -/
theorem archived_filter_iff_witness :
    ((FilterCond.termBool "archived" false)
        ∈ (_build_search_body [] false "match_phrase" none false false).filter)
    ∧ ∀ c ∈ (_build_search_body [] false "match_phrase" none false true).filter,
        FilterCond.field c ≠ "archived" := by
  constructor
  · exact (archived_filter_iff [] false "match_phrase" none false false).1.mpr rfl
  · exact (archived_filter_iff [] false "match_phrase" none false true).2 rfl

/-- C4: every emitted should-entry comes from some `(term, field)` pair
of some input clause and its match type is selected solely by the match
mode and sentence flag: wildcard mode yields a case-insensitive wildcard
on `*term*` with the resolved boost; otherwise a `"match_phrase"`
condition when the sentence flag is set, else a `"match"` condition. -/
theorem match_type_selection (queries : List QueryClause)
    (is_sentence : Bool) (query_type : String)
    (descriptor_type : Option String)
    (verified_only include_archived : Bool) :
    ∀ e ∈ (_build_search_body queries is_sentence query_type descriptor_type
        verified_only include_archived).should,
      ∃ q, q ∈ queries ∧ ∃ term field,
        (term, field) ∈ q.terms.zip q.fields ∧
        e = buildShouldEntry query_type is_sentence term field ∧
        (query_type = "wildcard" →
          e = ShouldEntry.wildcard field ("*" ++ term ++ "*") true (boostValue field)) ∧
        (query_type ≠ "wildcard" → is_sentence = true →
          e = ShouldEntry.matchCond "match_phrase" field term (boostValue field)) ∧
        (query_type ≠ "wildcard" → is_sentence = false →
          e = ShouldEntry.matchCond "match" field term (boostValue field)) := by
  intro e he
  unfold _build_search_body at he
  obtain ⟨q, hq, he⟩ := List.mem_flatMap.mp he
  obtain ⟨⟨term, field⟩, hp, rfl⟩ := List.mem_map.mp he
  refine ⟨q, hq, term, field, hp, rfl, ?_, ?_, ?_⟩
  · intro h
    simp [buildShouldEntry, h]
  · intro h hs
    simp [buildShouldEntry, h, hs]
  · intro h hs
    simp [buildShouldEntry, h, hs]

/-- Witness for C4 at a concrete wildcard search. -/
theorem match_type_selection_witness :
    ∃ q, q ∈ [(⟨["rna"], ["description"], "OR"⟩ : QueryClause)] ∧
      ∃ term field,
        (term, field) ∈ q.terms.zip q.fields ∧
        ShouldEntry.wildcard "description" "*rna*" true 10
          = buildShouldEntry "wildcard" false term field ∧
        ("wildcard" = "wildcard" →
          ShouldEntry.wildcard "description" "*rna*" true 10
            = ShouldEntry.wildcard field ("*" ++ term ++ "*") true (boostValue field)) ∧
        ("wildcard" ≠ "wildcard" → false = true →
          ShouldEntry.wildcard "description" "*rna*" true 10
            = ShouldEntry.matchCond "match_phrase" field term (boostValue field)) ∧
        ("wildcard" ≠ "wildcard" → false = false →
          ShouldEntry.wildcard "description" "*rna*" true 10
            = ShouldEntry.matchCond "match" field term (boostValue field)) := by
  have h := match_type_selection [⟨["rna"], ["description"], "OR"⟩] false
    "wildcard" none false false
    (ShouldEntry.wildcard "description" "*rna*" true 10)
    (by simp [_build_search_body, clauseEntries, buildShouldEntry, boostValue])
  exact h

/-- C10: a clause contributes exactly `min |terms| |fields|` should-entries
(surplus terms or fields are silently dropped by the zip); a clause with an
empty field list contributes nothing; and the whole `should` list has as
many entries as the sum of these minima over all clauses. -/
theorem clause_zip_truncation (query_type : String) (is_sentence : Bool)
    (q : QueryClause) :
    (clauseEntries query_type is_sentence q).length
        = min q.terms.length q.fields.length
    ∧ (q.fields = [] → clauseEntries query_type is_sentence q = [])
    ∧ ∀ (queries : List QueryClause) (descriptor_type : Option String)
        (verified_only include_archived : Bool),
        (_build_search_body queries is_sentence query_type descriptor_type
            verified_only include_archived).should.length
          = (queries.map (fun c => min c.terms.length c.fields.length)).sum := by
  refine ⟨by simp [clauseEntries], fun h => by simp [clauseEntries, h], ?_⟩
  intro queries d v a
  have hlen : ∀ c : QueryClause, (clauseEntries query_type is_sentence c).length
      = min c.terms.length c.fields.length := by
    intro c
    simp [clauseEntries]
  simp [_build_search_body, List.length_flatMap, Function.comp_def, hlen]

/-- Witness for C10: a clause with two terms and an empty field list. -/
theorem clause_zip_truncation_witness :
    (clauseEntries "match_phrase" false ⟨["a", "b"], [], "AND"⟩).length = 0
    ∧ clauseEntries "match_phrase" false ⟨["a", "b"], [], "AND"⟩ = [] := by
  have h := clause_zip_truncation "match_phrase" false ⟨["a", "b"], [], "AND"⟩
  exact ⟨by simpa using h.1, h.2.1 rfl⟩

/-! ### Helper lemmas for the formatter -/

/-- Membership in a conditionally-present singleton segment. -/
theorem mem_ite_singleton_iff {α : Type} {c : Prop} [Decidable c] {a b : α} :
    (a ∈ if c then [b] else []) ↔ c ∧ a = b := by
  split_ifs <;> simp_all

/-- Two appends with literal heads differing at a character position are
never equal, whatever the appended tails. -/
theorem ne_append_of_ne_at (p q : String) (i : Nat)
    (hip : i < p.data.length) (hiq : i < q.data.length)
    (hne : p.data[i]? ≠ q.data[i]?) (x y : String) : p ++ x ≠ q ++ y := by
  intro h
  have hd : p.data ++ x.data = q.data ++ y.data := by
    simpa [String.data_append] using congrArg String.data h
  have h1 : (p.data ++ x.data)[i]? = p.data[i]? := List.getElem?_append_left hip
  have h2 : (q.data ++ y.data)[i]? = q.data[i]? := List.getElem?_append_left hiq
  exact hne (by rw [← h1, ← h2, hd])

/-- Characterization of the lines occurring in a full-detail block. -/
theorem mem_detailLines_iff (wf : WorkflowInfo) (l : String) :
    l ∈ detailLines wf ↔
      (wf.descriptor_type ≠ "" ∧ l = "  Type: " ++ wf.descriptor_type)
      ∨ (wf.categories ≠ [] ∧ l = "  Categories: " ++ joinComma wf.categories)
      ∨ (wf.authors ≠ [] ∧ l = "  Authors: " ++ joinComma wf.authors)
      ∨ (wf.organization ≠ "" ∧ l = "  Organization: " ++ wf.organization)
      ∨ (wf.input_formats ≠ [] ∧ l = "  Input formats: " ++ joinComma wf.input_formats)
      ∨ (wf.output_formats ≠ [] ∧ l = "  Output formats: " ++ joinComma wf.output_formats) := by
  simp only [detailLines, List.mem_append, mem_ite_singleton_iff]
  tauto

/-- `orElseStr` is the truthiness-based fallback on the underlying value. -/
theorem orElseStr_eq_ite (o : Option String) (b : String) :
    orElseStr o b = if strVal o ≠ "" then strVal o else b := by
  cases o with
  | none => simp [orElseStr, strVal]
  | some s =>
      by_cases hs : s = "" <;> simp [orElseStr, strVal, hs]

/-! ### Claims about the result formatter -/

/-- C5 counterexample: on a response that carries an empty hit list the
formatter does not return the no-matching-results message (it returns the
header reporting zero workflows instead). -/
theorem format_empty_hits_counterexample :
    format_results (SearchResults.hits (some [])) false
      ≠ Rendered.text "No matching workflows found" := by
  have h : sortedWorkflows [] = [] := by simp [sortedWorkflows]
  simp only [format_results, format_results_lines, extractHits, Option.getD,
    displayedWorkflows, h]
  decide

/-- C5 (amended): the formatter is total on zero-hit responses; it
returns the no-matching-results message exactly for a response that is
absent or lacks the hit-list key, while a response carrying an empty
hit list is formatted normally: a zero-count header and no rendered
entries. -/
theorem format_zero_hits (results : SearchResults) (output_full : Bool) :
    (extractHits results = none →
      format_results results output_full
        = Rendered.text "No matching workflows found")
    ∧ (extractHits results = some [] →
        renderedEntries results output_full = []
        ∧ format_results_lines results output_full
            = [ "The following workflows were found in Dockstore:\x0a"
              , "Found 0 workflow(s):\x0a" ]) := by
  constructor
  · intro h
    simp [format_results, h]
  · intro h
    have hs : sortedWorkflows [] = [] := by simp [sortedWorkflows]
    constructor
    · simp [renderedEntries, h, displayedWorkflows, hs]
    · simp [format_results_lines, h, displayedWorkflows, headerLines, hs]
      rfl

/-- Witness for C5 (amended) at concrete zero-hit responses. -/
theorem format_zero_hits_witness :
    format_results SearchResults.missingHits true
      = Rendered.text "No matching workflows found"
    ∧ renderedEntries (SearchResults.hits (some [])) false = []
    ∧ format_results_lines (SearchResults.hits (some [])) false
        = [ "The following workflows were found in Dockstore:\x0a"
          , "Found 0 workflow(s):\x0a" ] := by
  refine ⟨(format_zero_hits SearchResults.missingHits true).1 rfl, ?_, ?_⟩
  · exact ((format_zero_hits (SearchResults.hits (some [])) false).2 rfl).1
  · exact ((format_zero_hits (SearchResults.hits (some [])) false).2 rfl).2

/-- C6: at most five entries are ever rendered, and a response carrying
`n` hits renders exactly `min n 5` workflow summaries. -/
theorem display_cap (results : SearchResults) (output_full : Bool) :
    (renderedEntries results output_full).length ≤ 5
    ∧ ∀ hits, results = SearchResults.hits (some hits) →
        (renderedEntries results output_full).length = min hits.length 5 := by
  have key : ∀ hits : List Hit,
      ((displayedWorkflows hits).map (renderEntry output_full)).length
        = min hits.length 5 := by
    intro hits
    simp [displayedWorkflows, sortedWorkflows]
  constructor
  · unfold renderedEntries
    cases hr : extractHits results with
    | none => simp
    | some hits =>
        rw [key hits]
        omega
  · rintro hits rfl
    simpa [renderedEntries, extractHits] using key hits

/-- Witness for C6 on a concrete seven-hit response. -/
theorem display_cap_witness :
    (renderedEntries (SearchResults.hits (some (List.replicate 7
        ⟨⟨none, none, none, none, none, none, [], false, [], none, [], []⟩, 1⟩)))
      false).length = 5 := by
  have h := (display_cap (SearchResults.hits (some (List.replicate 7
      ⟨⟨none, none, none, none, none, none, [], false, [], none, [], []⟩, 1⟩)))
    false).2 _ rfl
  simpa using h

/-- C7: the rendered entries are exactly the displayed workflows in
order, and that order is sorted by score descending, whatever order the
input hits arrive in. -/
theorem rendered_sorted_desc (hits : List Hit) (output_full : Bool) :
    renderedEntries (SearchResults.hits (some hits)) output_full
      = (displayedWorkflows hits).map (renderEntry output_full)
    ∧ (displayedWorkflows hits).Pairwise (fun a b => b.score ≤ a.score) := by
  refine ⟨rfl, ?_⟩
  have trans : ∀ a b c : WorkflowInfo,
      decide (b.score ≤ a.score) = true → decide (c.score ≤ b.score) = true →
      decide (c.score ≤ a.score) = true := by
    intro a b c hab hbc
    simp only [decide_eq_true_eq] at *
    exact le_trans hbc hab
  have total : ∀ a b : WorkflowInfo,
      (decide (b.score ≤ a.score) || decide (a.score ≤ b.score)) = true := by
    intro a b
    simp only [Bool.or_eq_true, decide_eq_true_eq]
    exact le_total b.score a.score
  have hs : (sortedWorkflows hits).Pairwise
      (fun a b => decide (b.score ≤ a.score) = true) :=
    List.sorted_mergeSort trans total (hits.map hitToInfo)
  have ht : (displayedWorkflows hits).Pairwise
      (fun a b => decide (b.score ≤ a.score) = true) :=
    hs.sublist (List.take_sublist _ _)
  exact ht.imp (fun h => by simpa using h)

/-- C8: the rendered name follows the fallback chain display name, then
canonical name, then repository identifier, then the literal placeholder;
in particular a hit lacking the first two but having a repository
identifier renders that identifier, and one lacking all three renders
the placeholder. -/
theorem name_fallback_chain (h : Hit) :
    ((hitToInfo h).name =
      if strVal h.source.workflowName ≠ "" then strVal h.source.workflowName
      else if strVal h.source.name ≠ "" then strVal h.source.name
      else if strVal h.source.repository ≠ "" then strVal h.source.repository
      else "Unnamed Workflow")
    ∧ (strVal h.source.workflowName = "" → strVal h.source.name = "" →
        strVal h.source.repository ≠ "" →
        (hitToInfo h).name = strVal h.source.repository)
    ∧ (strVal h.source.workflowName = "" → strVal h.source.name = "" →
        strVal h.source.repository = "" →
        (hitToInfo h).name = "Unnamed Workflow") := by
  have key : (hitToInfo h).name =
      if strVal h.source.workflowName ≠ "" then strVal h.source.workflowName
      else if strVal h.source.name ≠ "" then strVal h.source.name
      else if strVal h.source.repository ≠ "" then strVal h.source.repository
      else "Unnamed Workflow" := by
    simp only [hitToInfo, orElseStr_eq_ite]
  refine ⟨key, ?_, ?_⟩
  · intro h1 h2 h3
    simp [key, h1, h2, h3]
  · intro h1 h2 h3
    simp [key, h1, h2, h3]

/-- Witness for C8: a hit with only a repository identifier and a hit
with none of the three name fields. -/
theorem name_fallback_chain_witness :
    (hitToInfo ⟨⟨none, some "", some "repo", none, none, none, [], false,
        [], none, [], []⟩, 0⟩).name = "repo"
    ∧ (hitToInfo ⟨⟨none, some "", none, none, none, none, [], false,
        [], none, [], []⟩, 0⟩).name = "Unnamed Workflow" := by
  constructor
  · exact (name_fallback_chain ⟨⟨none, some "", some "repo", none, none, none,
      [], false, [], none, [], []⟩, 0⟩).2.1 rfl rfl (by decide)
  · exact (name_fallback_chain ⟨⟨none, some "", none, none, none, none,
      [], false, [], none, [], []⟩, 0⟩).2.2 rfl rfl rfl

/-- C9: in full-detail mode each of the six detail lines appears in an
entry block exactly when its underlying value or collection is
non-empty, and the block is the link line, the optional description
line, the detail lines and a blank separator. -/
theorem detail_line_iff_nonempty (wf : WorkflowInfo) :
    renderEntry true wf
        = [baseLine wf] ++ (if wf.desc ≠ "" then ["  " ++ wf.desc] else [])
          ++ detailLines wf ++ [""]
    ∧ (("  Type: " ++ wf.descriptor_type) ∈ detailLines wf
        ↔ wf.descriptor_type ≠ "")
    ∧ (("  Categories: " ++ joinComma wf.categories) ∈ detailLines wf
        ↔ wf.categories ≠ [])
    ∧ (("  Authors: " ++ joinComma wf.authors) ∈ detailLines wf
        ↔ wf.authors ≠ [])
    ∧ (("  Organization: " ++ wf.organization) ∈ detailLines wf
        ↔ wf.organization ≠ "")
    ∧ (("  Input formats: " ++ joinComma wf.input_formats) ∈ detailLines wf
        ↔ wf.input_formats ≠ [])
    ∧ (("  Output formats: " ++ joinComma wf.output_formats) ∈ detailLines wf
        ↔ wf.output_formats ≠ []) := by
  refine ⟨rfl, ?_, ?_, ?_, ?_, ?_, ?_⟩
  · constructor
    · intro hmem
      rcases (mem_detailLines_iff wf _).mp hmem with
        ⟨hc, _⟩ | ⟨_, he⟩ | ⟨_, he⟩ | ⟨_, he⟩ | ⟨_, he⟩ | ⟨_, he⟩
      · exact hc
      · exact absurd he (ne_append_of_ne_at "  Type: " "  Categories: " 2
          (by decide) (by decide) (by decide) _ _)
      · exact absurd he (ne_append_of_ne_at "  Type: " "  Authors: " 2
          (by decide) (by decide) (by decide) _ _)
      · exact absurd he (ne_append_of_ne_at "  Type: " "  Organization: " 2
          (by decide) (by decide) (by decide) _ _)
      · exact absurd he (ne_append_of_ne_at "  Type: " "  Input formats: " 2
          (by decide) (by decide) (by decide) _ _)
      · exact absurd he (ne_append_of_ne_at "  Type: " "  Output formats: " 2
          (by decide) (by decide) (by decide) _ _)
    · intro hc
      exact (mem_detailLines_iff wf _).mpr (Or.inl ⟨hc, rfl⟩)
  · constructor
    · intro hmem
      rcases (mem_detailLines_iff wf _).mp hmem with
        ⟨_, he⟩ | ⟨hc, _⟩ | ⟨_, he⟩ | ⟨_, he⟩ | ⟨_, he⟩ | ⟨_, he⟩
      · exact absurd he (ne_append_of_ne_at "  Categories: " "  Type: " 2
          (by decide) (by decide) (by decide) _ _)
      · exact hc
      · exact absurd he (ne_append_of_ne_at "  Categories: " "  Authors: " 2
          (by decide) (by decide) (by decide) _ _)
      · exact absurd he (ne_append_of_ne_at "  Categories: " "  Organization: " 2
          (by decide) (by decide) (by decide) _ _)
      · exact absurd he (ne_append_of_ne_at "  Categories: " "  Input formats: " 2
          (by decide) (by decide) (by decide) _ _)
      · exact absurd he (ne_append_of_ne_at "  Categories: " "  Output formats: " 2
          (by decide) (by decide) (by decide) _ _)
    · intro hc
      exact (mem_detailLines_iff wf _).mpr (Or.inr (Or.inl ⟨hc, rfl⟩))
  · constructor
    · intro hmem
      rcases (mem_detailLines_iff wf _).mp hmem with
        ⟨_, he⟩ | ⟨_, he⟩ | ⟨hc, _⟩ | ⟨_, he⟩ | ⟨_, he⟩ | ⟨_, he⟩
      · exact absurd he (ne_append_of_ne_at "  Authors: " "  Type: " 2
          (by decide) (by decide) (by decide) _ _)
      · exact absurd he (ne_append_of_ne_at "  Authors: " "  Categories: " 2
          (by decide) (by decide) (by decide) _ _)
      · exact hc
      · exact absurd he (ne_append_of_ne_at "  Authors: " "  Organization: " 2
          (by decide) (by decide) (by decide) _ _)
      · exact absurd he (ne_append_of_ne_at "  Authors: " "  Input formats: " 2
          (by decide) (by decide) (by decide) _ _)
      · exact absurd he (ne_append_of_ne_at "  Authors: " "  Output formats: " 2
          (by decide) (by decide) (by decide) _ _)
    · intro hc
      exact (mem_detailLines_iff wf _).mpr (Or.inr (Or.inr (Or.inl ⟨hc, rfl⟩)))
  · constructor
    · intro hmem
      rcases (mem_detailLines_iff wf _).mp hmem with
        ⟨_, he⟩ | ⟨_, he⟩ | ⟨_, he⟩ | ⟨hc, _⟩ | ⟨_, he⟩ | ⟨_, he⟩
      · exact absurd he (ne_append_of_ne_at "  Organization: " "  Type: " 2
          (by decide) (by decide) (by decide) _ _)
      · exact absurd he (ne_append_of_ne_at "  Organization: " "  Categories: " 2
          (by decide) (by decide) (by decide) _ _)
      · exact absurd he (ne_append_of_ne_at "  Organization: " "  Authors: " 2
          (by decide) (by decide) (by decide) _ _)
      · exact hc
      · exact absurd he (ne_append_of_ne_at "  Organization: " "  Input formats: " 2
          (by decide) (by decide) (by decide) _ _)
      · exact absurd he (ne_append_of_ne_at "  Organization: " "  Output formats: " 3
          (by decide) (by decide) (by decide) _ _)
    · intro hc
      exact (mem_detailLines_iff wf _).mpr
        (Or.inr (Or.inr (Or.inr (Or.inl ⟨hc, rfl⟩))))
  · constructor
    · intro hmem
      rcases (mem_detailLines_iff wf _).mp hmem with
        ⟨_, he⟩ | ⟨_, he⟩ | ⟨_, he⟩ | ⟨_, he⟩ | ⟨hc, _⟩ | ⟨_, he⟩
      · exact absurd he (ne_append_of_ne_at "  Input formats: " "  Type: " 2
          (by decide) (by decide) (by decide) _ _)
      · exact absurd he (ne_append_of_ne_at "  Input formats: " "  Categories: " 2
          (by decide) (by decide) (by decide) _ _)
      · exact absurd he (ne_append_of_ne_at "  Input formats: " "  Authors: " 2
          (by decide) (by decide) (by decide) _ _)
      · exact absurd he (ne_append_of_ne_at "  Input formats: " "  Organization: " 2
          (by decide) (by decide) (by decide) _ _)
      · exact hc
      · exact absurd he (ne_append_of_ne_at "  Input formats: " "  Output formats: " 2
          (by decide) (by decide) (by decide) _ _)
    · intro hc
      exact (mem_detailLines_iff wf _).mpr
        (Or.inr (Or.inr (Or.inr (Or.inr (Or.inl ⟨hc, rfl⟩)))))
  · constructor
    · intro hmem
      rcases (mem_detailLines_iff wf _).mp hmem with
        ⟨_, he⟩ | ⟨_, he⟩ | ⟨_, he⟩ | ⟨_, he⟩ | ⟨_, he⟩ | ⟨hc, _⟩
      · exact absurd he (ne_append_of_ne_at "  Output formats: " "  Type: " 2
          (by decide) (by decide) (by decide) _ _)
      · exact absurd he (ne_append_of_ne_at "  Output formats: " "  Categories: " 2
          (by decide) (by decide) (by decide) _ _)
      · exact absurd he (ne_append_of_ne_at "  Output formats: " "  Authors: " 2
          (by decide) (by decide) (by decide) _ _)
      · exact absurd he (ne_append_of_ne_at "  Output formats: " "  Organization: " 3
          (by decide) (by decide) (by decide) _ _)
      · exact absurd he (ne_append_of_ne_at "  Output formats: " "  Input formats: " 2
          (by decide) (by decide) (by decide) _ _)
      · exact hc
    · intro hc
      exact (mem_detailLines_iff wf _).mpr
        (Or.inr (Or.inr (Or.inr (Or.inr (Or.inr ⟨hc, rfl⟩)))))

/-- Witness for C9 at a concrete workflow record with some fields empty. -/
theorem detail_line_iff_nonempty_witness :
    ("  Type: " ++ "WDL")
      ∈ detailLines ⟨"n", "p", "", 1, "WDL", [], false, ["a"], "", [], []⟩
    ∧ ¬ ("  Categories: " ++ joinComma ([] : List String))
        ∈ detailLines ⟨"n", "p", "", 1, "WDL", [], false, ["a"], "", [], []⟩ := by
  constructor
  · exact (detail_line_iff_nonempty
      ⟨"n", "p", "", 1, "WDL", [], false, ["a"], "", [], []⟩).2.1.mpr (by decide)
  · intro hmem
    exact absurd ((detail_line_iff_nonempty
      ⟨"n", "p", "", 1, "WDL", [], false, ["a"], "", [], []⟩).2.2.1.mp hmem) (by decide)

end DockstoreSearch
